import Mathlib

/-!
Verification development for the ephemeral probe-job orchestrator
(`src/app/aci-pong.py`) and its measurement workload (`src/measure/measure.py`).

The Python sources are shallowly embedded: pure helpers become Lean functions,
the stateful orchestration loop becomes explicit state passing over a
`CycleState` record, backend calls are modelled by oracles whose outcomes are
either a returned value or a raised exception (`StepOutcome`), and numeric
values parsed from logs are kept as exact rationals (`ℚ`): the program performs
no arithmetic on them beyond a single multiplication by 1000, so exact decimal
semantics coincides with the observable behaviour for every claim considered.
-/

namespace AciPong

/-! ### Model of Python `str.strip` and `str.splitlines` -/

/-- ASCII whitespace characters removed by Python `str.strip()` (space, tab,
newline, carriage return, vertical tab, form feed). -/
def isPyWhitespace (c : Char) : Bool :=
  c == ' ' || c == '\t' || c == '\n' || c == '\r' || c == '\x0b' || c == '\x0c'

/-- Model of Python `str.strip()`: drop leading and trailing whitespace. -/
def pyStrip (s : String) : String :=
  String.mk (((s.toList.dropWhile isPyWhitespace).reverse.dropWhile
    isPyWhitespace).reverse)

/-- Helper for `splitlines`: accumulates the current line (reversed) and splits
on the line boundaries `\r\n`, `\r`, `\n`.  As in Python, a trailing
terminator does not produce a final empty line. -/
def splitlinesAux : List Char → List Char → List String
  | [], acc => if acc.isEmpty then [] else [String.mk acc.reverse]
  | '\r' :: '\n' :: rest, acc => String.mk acc.reverse :: splitlinesAux rest []
  | '\r' :: rest, acc => String.mk acc.reverse :: splitlinesAux rest []
  | '\n' :: rest, acc => String.mk acc.reverse :: splitlinesAux rest []
  | c :: rest, acc => splitlinesAux rest (c :: acc)

/-- Model of Python `str.splitlines()` restricted to the common line
boundaries `\n`, `\r`, `\r\n` (the exotic Unicode boundaries Python also
splits on do not occur in any input considered by the specification). -/
def splitlines (s : String) : List String :=
  splitlinesAux s.toList []

/-! ### Model of Python `float(str)`

Python `float` values are IEEE binary64; since the program only parses,
stores and prints them, we keep the parsed value exact.  `PyFloat`
distinguishes finite values from the infinities and NaN that `float()` also
accepts. -/

/-- Result of a successful Python `float(...)` conversion. -/
inductive PyFloat where
  | finite (val : ℚ)
  | inf (neg : Bool)
  | nan
deriving DecidableEq

/-- Consume an optional leading sign; returns (isNegative, rest). -/
def parseSign : List Char → Bool × List Char
  | '+' :: r => (false, r)
  | '-' :: r => (true, r)
  | l => (false, l)

/-- Consume a maximal run of ASCII digits in which single underscores may
appear strictly between two digits (Python numeric-literal rule).  Returns
the digits consumed (underscores removed) and the rest of the input. -/
def digitRun : List Char → List Char × List Char
  | [] => ([], [])
  | c :: '_' :: d :: tail =>
    if c.isDigit then
      if d.isDigit then
        let p := digitRun (d :: tail)
        (c :: p.1, p.2)
      else ([c], '_' :: d :: tail)
    else ([], c :: '_' :: d :: tail)
  | c :: rest =>
    if c.isDigit then
      let p := digitRun rest
      (c :: p.1, p.2)
    else ([], c :: rest)

/-- Numeric value of a digit list (most significant first). -/
def digitsVal (ds : List Char) : ℕ :=
  ds.foldl (fun a c => a * 10 + (c.toNat - 48)) 0

/-- Parse the exponent part following `e`/`E`: optional sign then a nonempty
digit run that must consume the whole rest.  The mantissa is carried as a pair
(numerator `n`, power-of-ten denominator exponent `fracLen`), i.e. the value
`n / 10 ^ fracLen`; the exponent shifts that representation. -/
def applyExponent (n : ℕ) (fracLen : ℕ) (l : List Char) : Option (ℕ × ℕ) :=
  let ps := parseSign l
  let pd := digitRun ps.2
  if pd.1 = [] ∨ pd.2 ≠ [] then none
  else if ps.1 then some (n, fracLen + digitsVal pd.1)
  else some (n * 10 ^ digitsVal pd.1, fracLen)

/-- Parse an unsigned Python float literal: `digits [. digits] [exp]` or
`. digits [exp]`, requiring at least one digit in the mantissa and that the
whole input is consumed.  Returns the value as a (numerator, power-of-ten
denominator exponent) pair. -/
def parseUnsigned (l : List Char) : Option (ℕ × ℕ) :=
  let pInt := digitRun l
  let pDot : List Char × List Char :=
    match pInt.2 with
    | '.' :: rest => digitRun rest
    | _ => ([], pInt.2)
  let ip := pInt.1
  let fp := pDot.1
  let rest := pDot.2
  if ip = [] ∧ fp = [] then none
  else
    let n := digitsVal (ip ++ fp)
    match rest with
    | [] => some (n, fp.length)
    | 'e' :: er => applyExponent n fp.length er
    | 'E' :: er => applyExponent n fp.length er
    | _ => none

/-- Core of `float(...)` after stripping: optional sign, then the
case-insensitive keywords `inf`/`infinity`/`nan` or a numeric literal. -/
def pyFloatCore (l : List Char) : Option PyFloat :=
  let ps := parseSign l
  let low := ps.2.map Char.toLower
  if low = "inf".toList ∨ low = "infinity".toList then some (.inf ps.1)
  else if low = "nan".toList then some .nan
  else (parseUnsigned ps.2).map fun p =>
    .finite (mkRat (if ps.1 then -(p.1 : ℤ) else (p.1 : ℤ)) (10 ^ p.2))

/-- Model of Python `float(s)`: strips whitespace itself, then parses; `none`
models the `ValueError` raised on an unparsable string. -/
def pyFloat (s : String) : Option PyFloat :=
  pyFloatCore (pyStrip s).toList

/-! ### `parse_response_time` (src/app/aci-pong.py lines 162-178) -/

/-- The `for line in log_content.splitlines()` loop body: `float(line.strip())`
returns on the first success, `ValueError` continues to the next line, and
`None` is returned after the loop. -/
def parseLines : List String → Option PyFloat
  | [] => none
  | line :: rest =>
    match pyFloat (pyStrip line) with
    | some v => some v
    | none => parseLines rest

/-- Model of `parse_response_time` (lines 162-178): scan the lines of the log
in order and return the first one that parses as a float, else `none`. -/
def parse_response_time (log_content : String) : Option PyFloat :=
  parseLines (splitlines log_content)

/-! ### Backend call outcomes

Every call into the Azure SDK either returns a value or raises an exception
derived from `Exception` (the only kind the script's handlers consider). -/

/-- Outcome of one backend call: a returned value or a raised exception. -/
inductive StepOutcome (α : Type) where
  | ok (val : α)
  | raise (msg : String)
deriving DecidableEq

/-! ### `wait_for_container_completion` (src/app/aci-pong.py lines 130-143) -/

/-- Maximum number of seconds to wait for an ACI container group job to
finish (line 79). -/
def ACR_TIMEOUT : ℕ := 180

/-- The `current_state.state` report for the single container of a polled
container group. -/
structure CurrentState where
  state : String
deriving DecidableEq

/-- The orchestrator-visible part of a polled container group: the first (and
only) container's `instance_view`, which the backend may omit. -/
structure ContainerView where
  instance_view : Option CurrentState
deriving DecidableEq

/-- Model of Python `str.lower()`: lower-case each character. -/
def pyLower (s : String) : String :=
  String.mk (s.toList.map Char.toLower)

/-- Line 138: `cg.containers[0].instance_view.current_state.state.lower() if
cg.containers[0].instance_view else ""`. -/
def container_state (cv : ContainerView) : String :=
  match cv.instance_view with
  | some s => pyLower s.state
  | none => ""

/-- Line 140: the states the polling loop treats as terminal. -/
def isTerminalState (st : String) : Bool :=
  st == "terminated" || st == "exited"

/-- The polling loop of `wait_for_container_completion` (lines 136-142) under
the discrete time model in which each backend `get` is instantaneous and each
`time.sleep(5)` advances the clock by 5 time-units: the loop condition
`time.time() - start_time < ACR_TIMEOUT` then allows exactly the polls at
elapsed times `5 * k` with `5 * k < ACR_TIMEOUT`, i.e. `ACR_TIMEOUT / 5`
polls, counted down by the second argument.  `poll k` is the backend's answer
to the `k`-th `client.container_groups.get` call; a raised answer propagates
out of the (handler-free) loop. -/
def waitLoopAux (poll : ℕ → StepOutcome ContainerView) :
    ℕ → ℕ → StepOutcome Bool
  | _, 0 => .ok false
  | k, pollsLeft + 1 =>
    match poll k with
    | .raise m => .raise m
    | .ok cg =>
      if isTerminalState (container_state cg) then .ok true
      else waitLoopAux poll (k + 1) pollsLeft

/-- Model of `wait_for_container_completion` (lines 130-143): poll every 5
time-units until a terminal state is observed (`ok true`), the 180-time-unit
budget elapses (`ok false`), or a poll raises. -/
def wait_for_container_completion (poll : ℕ → StepOutcome ContainerView) :
    StepOutcome Bool :=
  waitLoopAux poll 0 (ACR_TIMEOUT / 5)

/-! ### `run_measurement_cycle` (src/app/aci-pong.py lines 184-227)

The backend's behaviour towards one probe attempt is an oracle record; file
I/O (`read_webpages`) is abstracted to the resulting list of target URLs, and
the generated `measure-{uuid}` job name is part of the create oracle. -/

/-- Oracle for every backend interaction of one probe attempt. -/
structure AttemptBehavior where
  /-- Outcome of `create_container_group` (lines 95-128): the generated group
  name on success, or the exception raised by `begin_create_or_update`. -/
  createResult : StepOutcome String
  /-- Answers to the successive polls of `wait_for_container_completion`. -/
  poll : ℕ → StepOutcome ContainerView
  /-- Outcome of `get_container_logs` (lines 145-150): the log text or the
  exception raised by `list_logs`. -/
  logsResult : StepOutcome String
  /-- Outcome of the backend `begin_delete` call for a given group name. -/
  deleteResult : String → StepOutcome Unit
  /-- The region drawn by `random.choice(AZURE_REGIONS)` for this attempt. -/
  region : String

/-- One recorded gauge sample of `webpage_response_time` (lines 72-73, 216):
labels `target`, `region`, `timestamp` and the value set. -/
structure MetricSample where
  target : String
  region : String
  timestamp : String
  value : PyFloat
deriving DecidableEq

/-- Observable state threaded through one measurement cycle: the Python
variable `container_group_name` (which persists across loop iterations), the
number of `begin_create_or_update` and `list_logs` calls issued, the group
names passed to `begin_delete`, and the samples recorded in the metric
registry. -/
structure CycleState where
  container_group_name : Option String
  createCalls : ℕ
  logCalls : ℕ
  deleteCalls : List String
  sink : List MetricSample
deriving DecidableEq

/-- State at the start of a cycle: no name bound, no calls issued.  The sink
is global in the source; starting it empty records the samples added by the
cycle under consideration. -/
def initState : CycleState :=
  { container_group_name := none, createCalls := 0, logCalls := 0,
    deleteCalls := [], sink := [] }

/-- Line 213, `timestamp = datetime.datetime.now(datetime.UTC).isoformat()`:
line 15 imports the *class* `datetime` (`from datetime import datetime`), so
the attribute lookup `datetime.datetime` raises `AttributeError`; this
statement can never produce a timestamp string. -/
def timestampResult : StepOutcome String :=
  .raise "AttributeError: type object datetime has no attribute datetime"

/-- Exit status of the `try` block of the per-target loop body (lines
200-218): either it ran to completion (also via `continue`, line 207), or an
exception was raised inside it. -/
inductive TryExit where
  | done
  | raised (msg : String)
deriving DecidableEq

/-- The `try` block of the loop body (lines 200-218) for one target: create
the group, wait for completion (a timeout logs and `continue`s), fetch and
parse the logs, and on a parsed value compute the timestamp (which raises,
see `timestampResult`) and record the metric. -/
def tryBody (url : String) (b : AttemptBehavior) (s : CycleState) :
    CycleState × TryExit :=
  let s := { s with createCalls := s.createCalls + 1 }
  match b.createResult with
  | .raise m => (s, .raised m)
  | .ok name =>
    let s := { s with container_group_name := some name }
    match wait_for_container_completion b.poll with
    | .raise m => (s, .raised m)
    | .ok false => (s, .done)
    | .ok true =>
      let s := { s with logCalls := s.logCalls + 1 }
      match b.logsResult with
      | .raise m => (s, .raised m)
      | .ok text =>
        match parse_response_time text with
        | some v =>
          match timestampResult with
          | .raise m => (s, .raised m)
          | .ok ts =>
            ({ s with sink :=
                s.sink ++ [⟨url, b.region, ts, v⟩] }, .done)
        | none => (s, .done)

/-- Model of `delete_container_group` (lines 152-160): issue `begin_delete`
for the group; any exception it raises is caught and logged inside the
function (lines 159-160), so the caller observes no exception. -/
def delete_container_group (b : AttemptBehavior) (name : String)
    (s : CycleState) : CycleState :=
  let s := { s with deleteCalls := s.deleteCalls ++ [name] }
  match b.deleteResult name with
  | .ok _ => s
  | .raise _ => s

/-- Message of the error raised when `container_group_name` — a local
variable of `run_measurement_cycle`, because line 202 assigns it — is
referenced before any assignment has executed. -/
def unboundNameMsg : String :=
  "UnboundLocalError: local variable container_group_name referenced before assignment"

/-- The `finally` block (lines 222-227): call `delete_container_group` with
the current value of `container_group_name`.  If that variable was never
bound (no creation has succeeded yet in this cycle), evaluating it raises
`UnboundLocalError`; the `except` on line 226 catches that, but the
handler's own log call on line 227 interpolates the still-unbound
`container_group_name` into its f-string, raising `UnboundLocalError` again
before `logger.error` can run — nothing is logged, no delete reaches the
backend, and the error escapes the cleanup.  With the variable bound, the
delete is issued and `delete_container_group` swallows any backend error.
The second component is the exception escaping the block. -/
def runFinally (b : AttemptBehavior) (s : CycleState) :
    CycleState × Option String :=
  match s.container_group_name with
  | none => (s, some unboundNameMsg)
  | some name => (delete_container_group b name s, none)

/-- One iteration of the per-target loop (lines 198-227): run the `try`
block; the `except Exception` on line 220 absorbs anything it raised; then
run the `finally` block, whose escaping exception — the re-raised
unbound-name error, see `runFinally` — escapes the iteration. -/
def runAttempt (url : String) (b : AttemptBehavior) (s : CycleState) :
    CycleState × Option String :=
  runFinally b (tryBody url b s).1

/-- The `for url in webpages` loop of `run_measurement_cycle`: process the
targets in order, threading the state; an exception escaping an iteration
would abort the loop and propagate. -/
def runCycleFrom (bhv : ℕ → AttemptBehavior) :
    ℕ → CycleState → List String → CycleState × Option String
  | _, s, [] => (s, none)
  | i, s, url :: rest =>
    match runAttempt url (bhv i) s with
    | (s', none) => runCycleFrom bhv (i + 1) s' rest
    | (s', some m) => (s', some m)

/-- Model of `run_measurement_cycle` (lines 184-227): `webpages` is the list
the cycle read from the target file (an unreadable file yields `[]` and the
cycle returns at line 192 with nothing done, which coincides with folding
over the empty list), and `bhv i` is the backend's behaviour towards the
`i`-th probe attempt. -/
def run_measurement_cycle (webpages : List String)
    (bhv : ℕ → AttemptBehavior) : CycleState × Option String :=
  runCycleFrom bhv 0 initState webpages

/-- The name produced by the most recent successful `create_container_group`
among attempts `0, …, i-1` (later attempts take precedence); `none` when no
creation in that range succeeded.  This is the value the Python variable
`container_group_name` holds after those attempts. -/
def lastCreateInRange (bhv : ℕ → AttemptBehavior) : ℕ → ℕ → Option String
  | _, 0 => none
  | i, len + 1 =>
    match lastCreateInRange bhv (i + 1) len with
    | some n => some n
    | none =>
      match (bhv i).createResult with
      | .ok n => some n
      | .raise _ => none

/-! ### Startup configuration (src/app/aci-pong.py lines 46-79) -/

/-- The process environment: variable name to value, `none` when unset. -/
def EnvMap : Type := String → Option String

/-- The static region list (lines 65-68). -/
def AZURE_REGIONS : List String :=
  ["eastus", "westus", "centralus", "northeurope", "westeurope",
   "southeastasia", "eastasia"]

/-- The module-level configuration values computed at import time. -/
structure Config where
  AZURE_SUBSCRIPTION_ID : String
  AZURE_RESOURCE_GROUP : String
  MEASURE_IMAGE : String
  WEBPAGES_CONFIG_PATH : String
  MEASUREMENT_INTERVAL : ℕ
  ACR_TIMEOUT : ℕ
deriving DecidableEq

/-- Model of the module-level configuration block (lines 46-79).  `none`
models the `ValueError` raised at line 48, which aborts the import and hence
the process; Python's falsiness test `if not AZURE_SUBSCRIPTION_ID` also
fires on an empty string.  `AZURE_RESOURCE_GROUP`, `MEASURE_IMAGE` and
`WEBPAGES_CONFIG_PATH` are read with `os.environ.get(name, default)`;
`MEASUREMENT_INTERVAL` (line 76) and `ACR_TIMEOUT` (line 79) are assigned
literal constants and consult no environment variable. -/
def loadConfig (env : EnvMap) : Option Config :=
  match env "AZURE_SUBSCRIPTION_ID" with
  | none => none
  | some sub =>
    if sub = "" then none
    else some
      { AZURE_SUBSCRIPTION_ID := sub,
        AZURE_RESOURCE_GROUP :=
          (env "AZURE_RESOURCE_GROUP").getD "my-resource-group",
        MEASURE_IMAGE :=
          (env "MEASURE_IMAGE").getD
            "myregistry.azurecr.io/webpage-measure:latest",
        WEBPAGES_CONFIG_PATH :=
          (env "WEBPAGES_CONFIG_PATH").getD "/etc/webpages/webpages.txt",
        MEASUREMENT_INTERVAL := 15,
        ACR_TIMEOUT := 180 }

/-! ### The measurement workload (src/measure/measure.py) -/

/-- An HTTP request as issued by `requests.get(url, timeout=30)`. -/
structure HttpRequest where
  url : String
  timeout : ℕ
deriving DecidableEq

/-- The part of a `requests` response the script inspects. -/
structure HttpResponse where
  status_code : ℕ
deriving DecidableEq

/-- Outcome of `requests.get`: a response (together with the elapsed wall
time in seconds between the two `time.monotonic()` reads) or a raised
exception (connection error, timeout, ...). -/
inductive GetOutcome where
  | resp (r : HttpResponse) (elapsed_s : ℚ)
  | raise (msg : String)

/-- Model of `response.raise_for_status()`: it raises `HTTPError` exactly
for status codes 400-599. -/
def raise_for_status (r : HttpResponse) : Bool :=
  400 ≤ r.status_code && r.status_code < 600

/-- Model of `measure_response_time` (src/measure/measure.py lines 12-26):
returns (result, HTTP requests issued, stderr lines printed).  Any exception
in the `try` block is caught, printed to stderr, and turns the result into
`None`. -/
def measure_response_time (url : String) (http : HttpRequest → GetOutcome) :
    Option ℚ × List HttpRequest × List String :=
  match http { url := url, timeout := 30 } with
  | .raise m =>
    (none, [{ url := url, timeout := 30 }], ["Error: " ++ m])
  | .resp r elapsed =>
    if raise_for_status r then
      (none, [{ url := url, timeout := 30 }],
        ["Error: HTTP status " ++ toString r.status_code])
    else (some (elapsed * 1000), [{ url := url, timeout := 30 }], [])

/-- Observable result of one run of the measurement script: the floats
printed to stdout, the stderr lines, and the exit code. -/
structure ProcResult where
  stdout : List ℚ
  stderr : List String
  exitCode : ℕ

/-- Model of `main` (src/measure/measure.py lines 28-38) after argparse has
supplied the `--url` argument: print the measured value and exit 0, or exit 1
with the diagnostic already on stderr.  Also returns the requests issued. -/
def measure_main (url : String) (http : HttpRequest → GetOutcome) :
    ProcResult × List HttpRequest :=
  match measure_response_time url http with
  | (some v, reqs, errs) =>
    ({ stdout := [v], stderr := errs, exitCode := 0 }, reqs)
  | (none, reqs, errs) =>
    ({ stdout := [], stderr := errs, exitCode := 1 }, reqs)

/-! ### Concrete oracles used by witnesses and counterexamples -/

/-- A backend whose `begin_create_or_update` always raises; polls report no
instance view, logs are empty, deletes succeed. -/
def failCreateBhv : ℕ → AttemptBehavior := fun _ =>
  { createResult := .raise "create failed",
    poll := fun _ => .ok ⟨none⟩,
    logsResult := .ok "",
    deleteResult := fun _ => .ok (),
    region := "eastus" }

/-- Poll stream that reports `Running` twice and `Terminated` from the third
poll on. -/
def scenarioPoll : ℕ → StepOutcome ContainerView := fun k =>
  if k < 2 then .ok ⟨some ⟨"Running"⟩⟩ else .ok ⟨some ⟨"Terminated"⟩⟩

/-- The specification's end-to-end scenario: two targets, both jobs
terminated after 2 polls, logs `"42.0"` and `"memory warning\n58.3"`. -/
def scenarioBhv : ℕ → AttemptBehavior := fun i =>
  if i = 0 then
    { createResult := .ok "measure-1a2b3c4d",
      poll := scenarioPoll,
      logsResult := .ok "42.0",
      deleteResult := fun _ => .ok (),
      region := "eastus" }
  else
    { createResult := .ok "measure-5e6f7a8b",
      poll := scenarioPoll,
      logsResult := .ok "memory warning\n58.3",
      deleteResult := fun _ => .ok (),
      region := "westeurope" }

/-- A backend whose job is created but never reports a terminal state. -/
def timeoutBhv : AttemptBehavior :=
  { createResult := .ok "measure-deadbeef",
    poll := fun _ => .ok ⟨some ⟨"Waiting"⟩⟩,
    logsResult := .ok "",
    deleteResult := fun _ => .ok (),
    region := "centralus" }

/-- A backend for which the first creation succeeds and every later one
raises. -/
def mixedCreateBhv : ℕ → AttemptBehavior := fun i =>
  if i = 0 then
    { createResult := .ok "measure-00000001",
      poll := scenarioPoll,
      logsResult := .ok "42.0",
      deleteResult := fun _ => .ok (),
      region := "eastus" }
  else failCreateBhv i

/-- Environment with every variable set to `"999"` except the subscription
identifier. -/
def env999 : EnvMap := fun k =>
  if k = "AZURE_SUBSCRIPTION_ID" then some "sub-id" else some "999"

/-- Environment with only the subscription identifier set. -/
def envOnlySub : EnvMap := fun k =>
  if k = "AZURE_SUBSCRIPTION_ID" then some "sub-id" else none

/-! ### Helper lemmas -/

/-- Characterisation of the polling loop on a non-raising poll stream: it
answers `ok true` exactly when some in-budget poll observes a terminal state,
and `ok false` exactly when none does. -/
lemma waitLoopAux_pure_char (poll : ℕ → ContainerView) :
    ∀ left k,
      (waitLoopAux (fun j => .ok (poll j)) k left = .ok true ↔
        ∃ j < left, isTerminalState (container_state (poll (k + j))) = true) ∧
      (waitLoopAux (fun j => .ok (poll j)) k left = .ok false ↔
        ∀ j < left, isTerminalState (container_state (poll (k + j))) = false) := by
  intro left
  induction left with
  | zero =>
    intro k
    constructor
    · constructor
      · intro h
        simp [waitLoopAux] at h
      · rintro ⟨j, hj, _⟩
        omega
    · constructor
      · intro _ j hj
        omega
      · intro _
        simp [waitLoopAux]
  | succ n ih =>
    intro k
    have ih' := ih (k + 1)
    cases hterm : isTerminalState (container_state (poll k)) with
    | true =>
      constructor
      · constructor
        · intro _
          exact ⟨0, Nat.succ_pos n, by simpa using hterm⟩
        · intro _
          simp [waitLoopAux, hterm]
      · constructor
        · intro h
          simp [waitLoopAux, hterm] at h
        · intro h
          have := h 0 (Nat.succ_pos n)
          simp [hterm] at this
    | false =>
      have hstep : waitLoopAux (fun j => .ok (poll j)) k (n + 1) =
          waitLoopAux (fun j => .ok (poll j)) (k + 1) n := by
        simp [waitLoopAux, hterm]
      constructor
      · rw [hstep, ih'.1]
        constructor
        · rintro ⟨j, hj, hP⟩
          exact ⟨j + 1, by omega, by simpa [Nat.add_assoc, Nat.add_comm 1 j] using hP⟩
        · rintro ⟨j, hj, hP⟩
          match j, hP with
          | 0, hP => simp [hterm] at hP
          | j' + 1, hP =>
            exact ⟨j', by omega, by
              have : k + (j' + 1) = k + 1 + j' := by omega
              rwa [this] at hP⟩
      · rw [hstep, ih'.2]
        constructor
        · intro h j hj
          match j with
          | 0 => simpa using hterm
          | j' + 1 =>
            have := h j' (by omega)
            have heq : k + 1 + j' = k + (j' + 1) := by omega
            rwa [heq] at this
        · intro h j hj
          have := h (j + 1) (by omega)
          have heq : k + (j + 1) = k + 1 + j := by omega
          rwa [heq] at this

/-- If every poll answers without raising and never reports a terminal state,
the loop runs out its budget and answers `ok false`. -/
lemma waitLoopAux_all_nonterminal (poll : ℕ → StepOutcome ContainerView)
    (h : ∀ j, ∃ cv, poll j = .ok cv ∧
      isTerminalState (container_state cv) = false) :
    ∀ left k, waitLoopAux poll k left = .ok false := by
  intro left
  induction left with
  | zero => intro k; simp [waitLoopAux]
  | succ n ih =>
    intro k
    obtain ⟨cv, hcv, hter⟩ := h k
    simp [waitLoopAux, hcv, hter, ih]

/-- The function `delete_container_group` always records the delete call
and swallows any exception the backend raises, so its state effect does not
depend on the delete outcome. -/
lemma delete_container_group_eq (b : AttemptBehavior) (name : String)
    (s : CycleState) :
    delete_container_group b name s =
      { s with deleteCalls := s.deleteCalls ++ [name] } := by
  unfold delete_container_group
  cases b.deleteResult name <;> rfl

/-- State effect of one probe attempt: the metric sink is unchanged (the
timestamp computation raises before line 216 can run), exactly one create
call is issued, the job-name variable is rebound only by a successful
creation, the cleanup issues a delete exactly when the variable is bound,
and an exception escapes the iteration exactly when creation raised while
the variable was still unbound. -/
lemma runAttempt_state (url : String) (b : AttemptBehavior) (s : CycleState) :
    (runAttempt url b s).1.sink = s.sink ∧
    (runAttempt url b s).1.createCalls = s.createCalls + 1 ∧
    (runAttempt url b s).1.container_group_name =
      (match b.createResult with
       | .ok n => some n
       | .raise _ => s.container_group_name) ∧
    (runAttempt url b s).1.deleteCalls =
      (match (match b.createResult with
              | .ok n => some n
              | .raise _ => s.container_group_name) with
       | none => s.deleteCalls
       | some n => s.deleteCalls ++ [n]) ∧
    (runAttempt url b s).2 =
      (match b.createResult, s.container_group_name with
       | .raise _, none => some unboundNameMsg
       | _, _ => none) := by
  unfold runAttempt tryBody runFinally
  rcases hc : b.createResult with name | m
  · rcases hw : wait_for_container_completion b.poll with bv | m2
    · cases bv
      · simp [hc, hw, delete_container_group_eq]
      · rcases hl : b.logsResult with text | m3
        · rcases hv : parse_response_time text with _ | v
          · simp [hc, hw, hl, hv, delete_container_group_eq]
          · simp [hc, hw, hl, hv, timestampResult, delete_container_group_eq]
        · simp [hc, hw, hl, delete_container_group_eq]
    · simp [hc, hw, delete_container_group_eq]
  · rcases hb : s.container_group_name with _ | n
    · simp [hc, hb]
    · simp [hc, hb, delete_container_group_eq]

/-- Full equation for an attempt whose creation succeeds and whose job never
completes within the budget: only the create counter, the bound name and the
delete trace change, and nothing escapes. -/
lemma runAttempt_timeout_eq (url : String) (b : AttemptBehavior)
    (s : CycleState) (n : String) (hc : b.createResult = .ok n)
    (hw : wait_for_container_completion b.poll = .ok false) :
    runAttempt url b s =
      ({ s with createCalls := s.createCalls + 1,
                container_group_name := some n,
                deleteCalls := s.deleteCalls ++ [n] }, none) := by
  unfold runAttempt tryBody runFinally
  simp [hc, hw, delete_container_group_eq]

/-- One step of the target loop: the iteration's escaping exception, if any,
aborts the remaining targets. -/
lemma runCycleFrom_cons (bhv : ℕ → AttemptBehavior) (i : ℕ) (s : CycleState)
    (url : String) (rest : List String) :
    runCycleFrom bhv i s (url :: rest) =
      (match (runAttempt url (bhv i) s).2 with
       | none => runCycleFrom bhv (i + 1) (runAttempt url (bhv i) s).1 rest
       | some m => ((runAttempt url (bhv i) s).1, some m)) := by
  rcases hra : runAttempt url (bhv i) s with ⟨s2, e⟩
  cases e <;> simp [runCycleFrom, hra]

/-- The job-name variable after a loop run that escaped nothing holds the
most recently successfully created name, falling back to its prior value. -/
lemma runCycleFrom_bound (bhv : ℕ → AttemptBehavior) :
    ∀ (l : List String) (i : ℕ) (s : CycleState),
      (runCycleFrom bhv i s l).2 = none →
      (runCycleFrom bhv i s l).1.container_group_name =
        (match lastCreateInRange bhv i l.length with
         | some n => some n
         | none => s.container_group_name) := by
  intro l
  induction l with
  | nil => intro i s _; rfl
  | cons url rest ih =>
    intro i s hesc
    rw [runCycleFrom_cons] at hesc ⊢
    rcases hra : (runAttempt url (bhv i) s).2 with _ | m
    · rw [hra] at hesc
      show (runCycleFrom bhv (i + 1)
          (runAttempt url (bhv i) s).1 rest).1.container_group_name = _
      rw [ih (i + 1) _ hesc]
      have hb := (runAttempt_state url (bhv i) s).2.2.1
      rw [hb]
      show _ = (match lastCreateInRange bhv i (rest.length + 1) with
                | some n => some n
                | none => s.container_group_name)
      rcases hr : lastCreateInRange bhv (i + 1) rest.length with _ | n <;>
        rcases hc : (bhv i).createResult with n2 | m2 <;>
          simp [lastCreateInRange, hr, hc]
    · rw [hra] at hesc
      simp at hesc

/-- Once the job-name variable is bound, the loop processes every remaining
target without escaping: one create and one delete per target, the sink
unchanged. -/
lemma runCycleFrom_bound_all (bhv : ℕ → AttemptBehavior) :
    ∀ (l : List String) (i : ℕ) (s : CycleState) (n0 : String),
      s.container_group_name = some n0 →
      (runCycleFrom bhv i s l).2 = none ∧
      (runCycleFrom bhv i s l).1.createCalls = s.createCalls + l.length ∧
      (runCycleFrom bhv i s l).1.deleteCalls.length =
        s.deleteCalls.length + l.length ∧
      (runCycleFrom bhv i s l).1.sink = s.sink := by
  intro l
  induction l with
  | nil => intro i s n0 _; exact ⟨rfl, rfl, rfl, rfl⟩
  | cons url rest ih =>
    intro i s n0 hb
    have hst := runAttempt_state url (bhv i) s
    obtain ⟨n1, hb'⟩ : ∃ n1,
        (runAttempt url (bhv i) s).1.container_group_name = some n1 := by
      rw [hst.2.2.1]
      rcases hc : (bhv i).createResult with n | m
      · exact ⟨n, rfl⟩
      · exact ⟨n0, hb⟩
    have hesc : (runAttempt url (bhv i) s).2 = none := by
      rw [hst.2.2.2.2]
      rcases hc : (bhv i).createResult with n | m
      · rfl
      · rw [hb]
    have hd : (runAttempt url (bhv i) s).1.deleteCalls.length =
        s.deleteCalls.length + 1 := by
      have h4 := hst.2.2.2.1
      rw [← hst.2.2.1, hb'] at h4
      rw [h4]
      simp
    rw [runCycleFrom_cons]
    rw [hesc]
    have hrec := ih (i + 1) _ n1 hb'
    refine ⟨hrec.1, ?_, ?_, ?_⟩
    · rw [hrec.2.1, hst.2.1]
      simp
      omega
    · rw [hrec.2.2.1, hd]
      simp
      omega
    · rw [hrec.2.2.2, hst.1]

/-! ### Claim theorems -/

/-- C4: `parse_response_time` scans lines in order and returns the value of
the first line that, after whitespace trimming, parses entirely as a
floating-point number, ignoring all other lines, and absent (`none`) when no
line parses; in particular `"connecting...\n123.45\nextra\n"` yields 123.45,
`"error: refused\n"` yields absent and `""` yields absent. -/
theorem parse_returns_first_float_line :
    (∀ t : String,
      parse_response_time t =
        (splitlines t).findSome? fun line => pyFloat (pyStrip line)) ∧
    parse_response_time "connecting...\n123.45\nextra\n" =
      some (.finite (mkRat 2469 20)) ∧
    parse_response_time "error: refused\n" = none ∧
    parse_response_time "" = none := by
  refine ⟨fun t => ?_, by decide, by decide, rfl⟩
  show parseLines (splitlines t) = _
  induction splitlines t with
  | nil => rfl
  | cons l rest ih =>
    show (match pyFloat (pyStrip l) with
          | some v => some v
          | none => parseLines rest) = _
    cases hpf : pyFloat (pyStrip l) <;>
      simp [List.findSome?_cons, ih, hpf]

/-- C7: `wait_for_container_completion` is a total function that polls at a
fixed cadence of one poll per 5 time-units; on a non-raising backend it
returns completed (`ok true`) exactly when some poll within the
180-time-unit budget observes a terminal state, and timed-out (`ok false`)
exactly when no in-budget poll does. -/
theorem wait_completion_characterization (poll : ℕ → ContainerView) :
    (wait_for_container_completion (fun k => .ok (poll k)) = .ok true ↔
      ∃ k, 5 * k < ACR_TIMEOUT ∧
        isTerminalState (container_state (poll k)) = true) ∧
    (wait_for_container_completion (fun k => .ok (poll k)) = .ok false ↔
      ∀ k, 5 * k < ACR_TIMEOUT →
        isTerminalState (container_state (poll k)) = false) := by
  have h := waitLoopAux_pure_char poll (ACR_TIMEOUT / 5) 0
  have hb : ∀ j : ℕ, j < ACR_TIMEOUT / 5 ↔ 5 * j < ACR_TIMEOUT := by
    intro j
    simp [ACR_TIMEOUT]
    omega
  constructor
  · unfold wait_for_container_completion
    rw [h.1]
    constructor
    · rintro ⟨j, hj, hP⟩
      exact ⟨j, (hb j).1 hj, by simpa using hP⟩
    · rintro ⟨j, hj, hP⟩
      exact ⟨j, (hb j).2 hj, by simpa using hP⟩
  · unfold wait_for_container_completion
    rw [h.2]
    constructor
    · intro hall j hj
      simpa using hall j ((hb j).2 hj)
    · intro hall j hj
      simpa using hall j ((hb j).1 hj)

/-- C10: a polled container group whose first container has no instance view
yields the state `""`, which is not terminal, so the loop keeps polling
without raising, and a job whose instance view never appears ends the wait
only through the 180-time-unit budget expiring. -/
theorem missing_instance_view_waits_out_budget :
    container_state ⟨none⟩ = "" ∧ isTerminalState "" = false ∧
    ∀ poll : ℕ → StepOutcome ContainerView,
      (∀ k, poll k = .ok ⟨none⟩) →
      wait_for_container_completion poll = .ok false := by
  refine ⟨rfl, by decide, fun poll h => ?_⟩
  unfold wait_for_container_completion
  exact waitLoopAux_all_nonterminal poll
    (fun j => ⟨⟨none⟩, h j, by decide⟩) (ACR_TIMEOUT / 5) 0

/-- Witness for C10 at the constant no-instance-view poll stream. -/
theorem missing_instance_view_waits_out_budget_w :
    wait_for_container_completion
      (fun _ => .ok (⟨none⟩ : ContainerView)) = .ok false :=
  missing_instance_view_waits_out_budget.2.2
    (fun _ => .ok (⟨none⟩ : ContainerView)) (fun _ => rfl)

/-- C8: the measurement workload issues exactly one HTTP GET against the
given URL with a timeout of 30 time-units; on success it prints exactly one
value — the elapsed time in milliseconds — and exits 0; on a raised request
or an HTTP error status it prints a diagnostic to the error stream and exits
1. -/
theorem measure_workload_contract (url : String)
    (http : HttpRequest → GetOutcome) :
    (measure_main url http).2 = [{ url := url, timeout := 30 }] ∧
    (∀ r e, http { url := url, timeout := 30 } = .resp r e →
      raise_for_status r = false →
      (measure_main url http).1.stdout = [e * 1000] ∧
      (measure_main url http).1.stderr = [] ∧
      (measure_main url http).1.exitCode = 0) ∧
    (∀ r e, http { url := url, timeout := 30 } = .resp r e →
      raise_for_status r = true →
      (measure_main url http).1.stdout = [] ∧
      (measure_main url http).1.stderr ≠ [] ∧
      (measure_main url http).1.exitCode = 1) ∧
    (∀ m, http { url := url, timeout := 30 } = .raise m →
      (measure_main url http).1.stdout = [] ∧
      (measure_main url http).1.stderr ≠ [] ∧
      (measure_main url http).1.exitCode = 1) := by
  unfold measure_main measure_response_time
  rcases ho : http { url := url, timeout := 30 } with ⟨r, e⟩ | m
  · cases hs : raise_for_status r
    · refine ⟨by simp [hs], ?_, ?_, ?_⟩
      · intro r2 e2 h2 _
        injection h2 with hr he
        subst hr
        subst he
        simp [hs]
      · intro r2 e2 h2 hs2
        injection h2 with hr he
        subst hr
        rw [hs] at hs2
        cases hs2
      · intro m2 h2
        cases h2
    · refine ⟨by simp [hs], ?_, ?_, ?_⟩
      · intro r2 e2 h2 hs2
        injection h2 with hr he
        subst hr
        rw [hs] at hs2
        cases hs2
      · intro r2 e2 h2 _
        injection h2 with hr he
        subst hr
        subst he
        simp [hs]
      · intro m2 h2
        cases h2
  · refine ⟨by simp, ?_, ?_, ?_⟩
    · intro r2 e2 h2
      cases h2
    · intro r2 e2 h2
      cases h2
    · intro m2 h2
      simp

/-- Witness for C8: a 200 response measured at 2 seconds prints 2000 ms and
exits 0, and exactly one request with timeout 30 was issued. -/
theorem measure_workload_contract_w :
    (measure_main "https://x.example"
        (fun _ => .resp ⟨200⟩ 2)).2 =
      [{ url := "https://x.example", timeout := 30 }] ∧
    (measure_main "https://x.example"
        (fun _ => .resp ⟨200⟩ 2)).1.stdout = [(2 : ℚ) * 1000] ∧
    (measure_main "https://x.example"
        (fun _ => .resp ⟨200⟩ 2)).1.exitCode = 0 :=
  ⟨(measure_workload_contract "https://x.example"
      (fun _ => .resp ⟨200⟩ 2)).1,
   ((measure_workload_contract "https://x.example"
      (fun _ => .resp ⟨200⟩ 2)).2.1 ⟨200⟩ 2 rfl (by decide)).1,
   ((measure_workload_contract "https://x.example"
      (fun _ => .resp ⟨200⟩ 2)).2.1 ⟨200⟩ 2 rfl (by decide)).2.2⟩

/-- C6 (amended): absence of the subscription identifier is a hard startup
failure; resource-group name, job image reference and target-list file path
take their defaults when absent from the environment; the cycle interval and
the per-job timeout are the constants 15 and 180 in every environment — they
are not environment inputs. -/
theorem config_required_subscription_fixed_timings (env : EnvMap) :
    (env "AZURE_SUBSCRIPTION_ID" = none → loadConfig env = none) ∧
    ∀ cfg, loadConfig env = some cfg →
      (env "AZURE_RESOURCE_GROUP" = none →
        cfg.AZURE_RESOURCE_GROUP = "my-resource-group") ∧
      (env "MEASURE_IMAGE" = none →
        cfg.MEASURE_IMAGE = "myregistry.azurecr.io/webpage-measure:latest") ∧
      (env "WEBPAGES_CONFIG_PATH" = none →
        cfg.WEBPAGES_CONFIG_PATH = "/etc/webpages/webpages.txt") ∧
      cfg.MEASUREMENT_INTERVAL = 15 ∧ cfg.ACR_TIMEOUT = 180 := by
  constructor
  · intro h
    unfold loadConfig
    rw [h]
  · intro cfg hcfg
    unfold loadConfig at hcfg
    rcases hsub : env "AZURE_SUBSCRIPTION_ID" with _ | sub
    · rw [hsub] at hcfg
      cases hcfg
    · rw [hsub] at hcfg
      by_cases hne : sub = ""
      · simp [hne] at hcfg
      · simp [hne] at hcfg
        refine ⟨fun h => ?_, fun h => ?_, fun h => ?_, ?_, ?_⟩
        · simp [← hcfg, h]
        · simp [← hcfg, h]
        · simp [← hcfg, h]
        · simp [← hcfg]
        · simp [← hcfg]

/-- Witness for C6: an empty environment aborts startup; with only the
subscription set, the defaults and the constant timings are loaded. -/
theorem config_required_subscription_fixed_timings_w :
    loadConfig (fun _ => none) = none ∧
    Config.AZURE_RESOURCE_GROUP
        { AZURE_SUBSCRIPTION_ID := "sub-id",
          AZURE_RESOURCE_GROUP := "my-resource-group",
          MEASURE_IMAGE := "myregistry.azurecr.io/webpage-measure:latest",
          WEBPAGES_CONFIG_PATH := "/etc/webpages/webpages.txt",
          MEASUREMENT_INTERVAL := 15, ACR_TIMEOUT := 180 } =
      "my-resource-group" ∧
    Config.MEASUREMENT_INTERVAL
        { AZURE_SUBSCRIPTION_ID := "sub-id",
          AZURE_RESOURCE_GROUP := "my-resource-group",
          MEASURE_IMAGE := "myregistry.azurecr.io/webpage-measure:latest",
          WEBPAGES_CONFIG_PATH := "/etc/webpages/webpages.txt",
          MEASUREMENT_INTERVAL := 15, ACR_TIMEOUT := 180 } = 15 ∧
    Config.ACR_TIMEOUT
        { AZURE_SUBSCRIPTION_ID := "sub-id",
          AZURE_RESOURCE_GROUP := "my-resource-group",
          MEASURE_IMAGE := "myregistry.azurecr.io/webpage-measure:latest",
          WEBPAGES_CONFIG_PATH := "/etc/webpages/webpages.txt",
          MEASUREMENT_INTERVAL := 15, ACR_TIMEOUT := 180 } = 180 := by
  have h := config_required_subscription_fixed_timings envOnlySub
  have h2 := h.2
    { AZURE_SUBSCRIPTION_ID := "sub-id",
      AZURE_RESOURCE_GROUP := "my-resource-group",
      MEASURE_IMAGE := "myregistry.azurecr.io/webpage-measure:latest",
      WEBPAGES_CONFIG_PATH := "/etc/webpages/webpages.txt",
      MEASUREMENT_INTERVAL := 15, ACR_TIMEOUT := 180 } (by decide)
  exact ⟨(config_required_subscription_fixed_timings (fun _ => none)).1 rfl,
    h2.1 (by decide), h2.2.2.2.1, h2.2.2.2.2⟩

/-- C6 counterexample: in an environment where every variable (other than
the subscription identifier) is set to "999", the loaded cycle interval and
per-job timeout are still the constants 15 and 180: no environment variable
feeds them, so they are not environment-style inputs with defaults. -/
theorem config_interval_timeout_ignore_env :
    loadConfig env999 = some
      { AZURE_SUBSCRIPTION_ID := "sub-id", AZURE_RESOURCE_GROUP := "999",
        MEASURE_IMAGE := "999", WEBPAGES_CONFIG_PATH := "999",
        MEASUREMENT_INTERVAL := 15, ACR_TIMEOUT := 180 } ∧
    (999 : ℕ) ≠ 15 ∧ (999 : ℕ) ≠ 180 := by
  refine ⟨by decide, by decide, by decide⟩

/-- C5 (the code evaluated at the failing input): with a single target
whose creation raises, the cleanup at line 225 hits `UnboundLocalError`, the
handler's log line 227 re-raises it, and the error escapes the iteration and
the cycle — the pass aborts after one create call, zero delete calls and no
sample, instead of converting the backend error into an absent result for
that target. -/
theorem create_failure_escapes_cycle :
    (run_measurement_cycle ["https://a.example"] failCreateBhv).2 =
      some unboundNameMsg ∧
    (run_measurement_cycle ["https://a.example"] failCreateBhv).1.createCalls
      = 1 ∧
    (run_measurement_cycle ["https://a.example"] failCreateBhv).1.deleteCalls
      = [] ∧
    (run_measurement_cycle ["https://a.example"] failCreateBhv).1.sink =
      [] := by
  refine ⟨by decide, by decide, by decide, by decide⟩

/-- C2 (amended): whenever the first target's creation succeeds, one
orchestration pass issues exactly N job-create calls and exactly N
job-delete calls and nothing escapes, under injected backend failures at any
later step — each attempt's cleanup deletes exactly once, though after a
later creation failure it targets the previous job's name.  When the first
target's creation fails, the cleanup's own except handler re-raises the
unbound-name error while formatting its log line (line 227), so the pass
aborts with an escaping exception after exactly 1 create call and 0 delete
calls. -/
theorem cycle_create_delete_counts (webpages : List String)
    (bhv : ℕ → AttemptBehavior) :
    (∀ n, (bhv 0).createResult = .ok n →
      (run_measurement_cycle webpages bhv).2 = none ∧
      (run_measurement_cycle webpages bhv).1.createCalls = webpages.length ∧
      (run_measurement_cycle webpages bhv).1.deleteCalls.length =
        webpages.length) ∧
    (∀ url rest m, webpages = url :: rest →
      (bhv 0).createResult = .raise m →
      (run_measurement_cycle webpages bhv).2 = some unboundNameMsg ∧
      (run_measurement_cycle webpages bhv).1.createCalls = 1 ∧
      (run_measurement_cycle webpages bhv).1.deleteCalls = []) := by
  constructor
  · intro n hc0
    cases webpages with
    | nil => exact ⟨rfl, rfl, rfl⟩
    | cons url rest =>
      unfold run_measurement_cycle
      have hst := runAttempt_state url (bhv 0) initState
      have hb1 : (runAttempt url (bhv 0) initState).1.container_group_name =
          some n := by
        rw [hst.2.2.1, hc0]
      have hesc : (runAttempt url (bhv 0) initState).2 = none := by
        rw [hst.2.2.2.2, hc0]
      have hd1 : (runAttempt url (bhv 0) initState).1.deleteCalls.length =
          1 := by
        have h4 := hst.2.2.2.1
        rw [← hst.2.2.1, hb1] at h4
        rw [h4]
        simp [initState]
      have hcc1 : (runAttempt url (bhv 0) initState).1.createCalls = 1 := by
        rw [hst.2.1]
        rfl
      rw [runCycleFrom_cons, hesc]
      have hrec := runCycleFrom_bound_all bhv rest (0 + 1)
        (runAttempt url (bhv 0) initState).1 n hb1
      refine ⟨?_, ?_, ?_⟩
      · show (runCycleFrom bhv (0 + 1)
            (runAttempt url (bhv 0) initState).1 rest).2 = none
        exact hrec.1
      · show (runCycleFrom bhv (0 + 1)
            (runAttempt url (bhv 0) initState).1 rest).1.createCalls =
          (url :: rest).length
        rw [hrec.2.1, hcc1]
        simp
        omega
      · show (runCycleFrom bhv (0 + 1)
            (runAttempt url (bhv 0) initState).1
              rest).1.deleteCalls.length = (url :: rest).length
        rw [hrec.2.2.1, hd1]
        simp
        omega
  · intro url rest m hw hc0
    subst hw
    unfold run_measurement_cycle
    have hst := runAttempt_state url (bhv 0) initState
    have hesc : (runAttempt url (bhv 0) initState).2 =
        some unboundNameMsg := by
      rw [hst.2.2.2.2, hc0]
      rfl
    have hb1 : (runAttempt url (bhv 0) initState).1.container_group_name =
        none := by
      rw [hst.2.2.1, hc0]
      rfl
    rw [runCycleFrom_cons, hesc]
    refine ⟨rfl, ?_, ?_⟩
    · show (runAttempt url (bhv 0) initState).1.createCalls = 1
      rw [hst.2.1]
      rfl
    · show (runAttempt url (bhv 0) initState).1.deleteCalls = []
      have h4 := hst.2.2.2.1
      rw [← hst.2.2.1, hb1] at h4
      rw [h4]
      rfl

/-- Witness for C2: the scenario backend (first creation succeeds) yields 2
creates, 2 deletes and no escape over two targets; the failing-create
backend on one target yields 1 create, 0 deletes and an escaping
unbound-name error. -/
theorem cycle_create_delete_counts_w :
    ((run_measurement_cycle ["https://a.example", "https://b.example"]
        scenarioBhv).2 = none ∧
      (run_measurement_cycle ["https://a.example", "https://b.example"]
        scenarioBhv).1.createCalls = 2 ∧
      (run_measurement_cycle ["https://a.example", "https://b.example"]
        scenarioBhv).1.deleteCalls.length = 2) ∧
    ((run_measurement_cycle ["https://a.example"] failCreateBhv).2 =
        some unboundNameMsg ∧
      (run_measurement_cycle ["https://a.example"]
        failCreateBhv).1.createCalls = 1 ∧
      (run_measurement_cycle ["https://a.example"]
        failCreateBhv).1.deleteCalls = []) :=
  ⟨(cycle_create_delete_counts
      ["https://a.example", "https://b.example"] scenarioBhv).1
    "measure-1a2b3c4d" (by decide),
   (cycle_create_delete_counts ["https://a.example"] failCreateBhv).2
    "https://a.example" [] "create failed" rfl (by decide)⟩

/-- C2 counterexample: with the single target list
`["https://a.example"]` and a backend whose creation raises, the pass issues
1 create call but 0 delete calls — not exactly N = 1 of each. -/
theorem delete_count_not_target_count :
    (run_measurement_cycle ["https://a.example"] failCreateBhv).1.createCalls
        = 1 ∧
    ¬ ((run_measurement_cycle ["https://a.example"]
          failCreateBhv).1.deleteCalls.length =
        ["https://a.example"].length) := by
  refine ⟨by decide, by decide⟩

/-- C3: an attempt whose creation succeeds but whose job never reports a
terminal state within the budget records no metric sample, fetches no log,
still issues the delete call for that job, and lets nothing escape before
the pass moves to the next target. -/
theorem timeout_probe_absent_still_deleted (url : String)
    (b : AttemptBehavior) (s : CycleState) (n : String)
    (hc : b.createResult = .ok n)
    (hpoll : ∀ k, ∃ cv, b.poll k = .ok cv ∧
      isTerminalState (container_state cv) = false) :
    (runAttempt url b s).1.sink = s.sink ∧
    (runAttempt url b s).1.logCalls = s.logCalls ∧
    (runAttempt url b s).1.deleteCalls = s.deleteCalls ++ [n] ∧
    (runAttempt url b s).2 = none := by
  have hw : wait_for_container_completion b.poll = .ok false := by
    unfold wait_for_container_completion
    exact waitLoopAux_all_nonterminal b.poll hpoll _ _
  rw [runAttempt_timeout_eq url b s n hc hw]
  exact ⟨rfl, rfl, rfl, rfl⟩

/-- Witness for C3: a job stuck in `Waiting` times out; no sample, no log
fetch, one delete. -/
theorem timeout_probe_absent_still_deleted_w :
    (runAttempt "https://t.example" timeoutBhv initState).1.sink =
      initState.sink ∧
    (runAttempt "https://t.example" timeoutBhv initState).1.logCalls =
      initState.logCalls ∧
    (runAttempt "https://t.example" timeoutBhv initState).1.deleteCalls =
      initState.deleteCalls ++ ["measure-deadbeef"] ∧
    (runAttempt "https://t.example" timeoutBhv initState).2 = none :=
  timeout_probe_absent_still_deleted "https://t.example" timeoutBhv
    initState "measure-deadbeef" rfl
    (fun _ => ⟨⟨some ⟨"Waiting"⟩⟩, rfl, by decide⟩)

/-- C9 (amended): when creation raises for the attempt that follows the
already-processed targets `prev` (a run that escaped nothing), no delete
call for that target reaches the backend: if no earlier creation in the
cycle succeeded, the cleanup's unbound-name error is caught on line 226 but
re-raised by the handler's own log line, so nothing is logged and the error
escapes the iteration; otherwise the cleanup issues a delete for the name of
the most recent earlier target whose creation succeeded (a repeated delete
of an already-deleted job), because the job-name variable retains its value
across loop iterations, and nothing escapes. -/
theorem create_failure_cleanup (prev : List String) (url : String)
    (bhv : ℕ → AttemptBehavior) (m : String)
    (hprev : (runCycleFrom bhv 0 initState prev).2 = none)
    (hc : (bhv prev.length).createResult = .raise m) :
    (lastCreateInRange bhv 0 prev.length = none →
      (runAttempt url (bhv prev.length)
          (runCycleFrom bhv 0 initState prev).1).1.deleteCalls =
        (runCycleFrom bhv 0 initState prev).1.deleteCalls ∧
      (runAttempt url (bhv prev.length)
          (runCycleFrom bhv 0 initState prev).1).2 = some unboundNameMsg) ∧
    (∀ n, lastCreateInRange bhv 0 prev.length = some n →
      (runAttempt url (bhv prev.length)
          (runCycleFrom bhv 0 initState prev).1).1.deleteCalls =
        (runCycleFrom bhv 0 initState prev).1.deleteCalls ++ [n] ∧
      (runAttempt url (bhv prev.length)
          (runCycleFrom bhv 0 initState prev).1).2 = none) := by
  have hbound : (runCycleFrom bhv 0 initState prev).1.container_group_name =
      (match lastCreateInRange bhv 0 prev.length with
       | some n => some n
       | none => none) := by
    have h := runCycleFrom_bound bhv prev 0 initState hprev
    simpa [initState] using h
  have hst := runAttempt_state url (bhv prev.length)
    (runCycleFrom bhv 0 initState prev).1
  constructor
  · intro hnone
    have hb0 : (runCycleFrom bhv 0 initState prev).1.container_group_name =
        none := by
      rw [hbound, hnone]
    constructor
    · have h := hst.2.2.2.1
      rw [← hst.2.2.1] at h
      have hb1 : (runAttempt url (bhv prev.length)
          (runCycleFrom bhv 0 initState prev).1).1.container_group_name =
          none := by
        rw [hst.2.2.1, hc, hb0]
      rw [hb1] at h
      exact h
    · rw [hst.2.2.2.2, hc, hb0]
  · intro n hn
    have hb0 : (runCycleFrom bhv 0 initState prev).1.container_group_name =
        some n := by
      rw [hbound, hn]
    constructor
    · have h := hst.2.2.2.1
      rw [← hst.2.2.1] at h
      have hb1 : (runAttempt url (bhv prev.length)
          (runCycleFrom bhv 0 initState prev).1).1.container_group_name =
          some n := by
        rw [hst.2.2.1, hc, hb0]
      rw [hb1] at h
      exact h
    · rw [hst.2.2.2.2, hc, hb0]

/-- C9 counterexample: when the very first creation raises, the cleanup's
unbound-name error is caught at line 226 but never logged — the handler
re-raises it before `logger.error` runs, so it escapes the iteration rather
than being caught and logged within the cleanup. -/
theorem unbound_cleanup_error_escapes :
    (runAttempt "https://a.example" (failCreateBhv 0) initState).2 =
      some unboundNameMsg ∧
    ¬ ((runAttempt "https://a.example" (failCreateBhv 0) initState).2 =
        none) := by
  refine ⟨by decide, by decide⟩

/-- Witness for C9: after a successful first creation, a failing second
creation still triggers a delete — of the first job's name, again — and
nothing escapes. -/
theorem create_failure_cleanup_w :
    (runAttempt "https://b.example" (mixedCreateBhv 1)
        (runCycleFrom mixedCreateBhv 0 initState
          ["https://a.example"]).1).1.deleteCalls =
      (runCycleFrom mixedCreateBhv 0 initState
          ["https://a.example"]).1.deleteCalls ++ ["measure-00000001"] ∧
    (runAttempt "https://b.example" (mixedCreateBhv 1)
        (runCycleFrom mixedCreateBhv 0 initState
          ["https://a.example"]).1).2 = none :=
  (create_failure_cleanup ["https://a.example"] "https://b.example"
      mixedCreateBhv "create failed" (by decide) (by decide)).2
    "measure-00000001" (by decide)

/-- C1 (the code evaluated at the specification's end-to-end scenario): both
logs parse to the expected values 42.0 and 58.3 and both jobs are created
and deleted, yet the metric sink ends empty, because the timestamp
computation on line 213 (`datetime.datetime.now(datetime.UTC)`, with
`datetime` bound to the class by line 15) raises `AttributeError` before
line 216 can record the sample. -/
theorem scenario_records_no_samples :
    (run_measurement_cycle ["https://a.example", "https://b.example"]
        scenarioBhv).1.sink = [] ∧
    (run_measurement_cycle ["https://a.example", "https://b.example"]
        scenarioBhv).1.createCalls = 2 ∧
    (run_measurement_cycle ["https://a.example", "https://b.example"]
        scenarioBhv).1.deleteCalls =
      ["measure-1a2b3c4d", "measure-5e6f7a8b"] ∧
    parse_response_time "42.0" = some (.finite (mkRat 42 1)) ∧
    parse_response_time "memory warning\n58.3" =
      some (.finite (mkRat 583 10)) := by
  refine ⟨by decide, by decide, by decide, by decide, by decide⟩

end AciPong
